import Mathlib

/-!
Shallow embedding of `src/server/server.js` (muhammedanasmp-h/creashift):
an Express server exposing generic CRUD endpoints over a flat-file JSON
store, plus a contact endpoint and a login check.

JavaScript values are modelled by `JVal`; JS objects are association lists
with unique keys (as produced by `JSON.parse` / object literals); the
persisted document (`database.json`) is itself such an object.  File
system effects of `readDB` / `writeDB` are modelled as an event trace in
each handler's result, with the written document carried explicitly.
Exceptions thrown by the JS code (e.g. calling a missing method) are
modelled by the `Outcome.thrown` constructor.
-/

set_option autoImplicit false

namespace Creashift

/-- JavaScript runtime values, as far as the server manipulates them:
JSON values plus `undefined`.  Numbers are modelled as integers (the
code never produces fractional numbers; `Date.now()` is an integer).
Arrays and objects in JS compare by reference; `strictEqPrim` below
accounts for that. -/
inductive JVal where
  | str : String → JVal
  | num : Int → JVal
  | bool : Bool → JVal
  | null : JVal
  | undef : JVal
  | arr : List JVal → JVal
  | obj : List (String × JVal) → JVal
deriving Repr

/-- A JS object: association list of fields, in property order. -/
abbrev Obj := List (String × JVal)

/-- Property read `o[k]` on an object, as an `Option` (`none` =
the property is absent, i.e. the access yields `undefined`). -/
def getField : Obj → String → Option JVal
  | [], _ => none
  | p :: rest, k => if p.1 == k then some p.2 else getField rest k

/-- Property write `o[k] = v` on an object: JS updates an existing
property in place (keeping its position) and appends a new one. -/
def setField : Obj → String → JVal → Obj
  | [], k, v => [(k, v)]
  | p :: rest, k, v => if p.1 == k then (k, v) :: rest else p :: setField rest k v

/-- Spread `\x7b ...a, ...b \x7d`: the fields of `b` written over `a`
one by one, in order.  Existing keys keep their position with the new
value; new keys are appended in `b`'s order — JS object spread. -/
def spreadInto (a b : Obj) : Obj :=
  b.foldl (fun acc p => setField acc p.1 p.2) a

@[simp] theorem getField_nil (k : String) : getField [] k = none := rfl

theorem getField_cons (p : String × JVal) (rest : Obj) (k : String) :
    getField (p :: rest) k = if p.1 == k then some p.2 else getField rest k := rfl

@[simp] theorem spreadInto_nil (a : Obj) : spreadInto a [] = a := rfl

theorem spreadInto_cons (a : Obj) (p : String × JVal) (tl : Obj) :
    spreadInto a (p :: tl) = spreadInto (setField a p.1 p.2) tl := rfl

@[simp] theorem getField_setField_self (o : Obj) (k : String) (v : JVal) :
    getField (setField o k v) k = some v := by
  induction o with
  | nil => simp [setField, getField]
  | cons p rest ih =>
      by_cases h : p.1 = k
      · simp [setField, getField, h]
      · simp [setField, getField, h, ih]

theorem getField_setField_ne (o : Obj) (k k' : String) (v : JVal) (h : k' ≠ k) :
    getField (setField o k v) k' = getField o k' := by
  induction o with
  | nil => simp [setField, getField, Ne.symm h]
  | cons p rest ih =>
      by_cases hp : p.1 = k
      · have hkk : k ≠ k' := fun hh => h hh.symm
        simp [setField, getField, hp, hkk]
      · simp [setField, getField, hp, ih]

theorem getField_eq_none_of_not_mem (o : Obj) (k : String)
    (h : k ∉ o.map Prod.fst) : getField o k = none := by
  induction o with
  | nil => rfl
  | cons p rest ih =>
      have h1 : p.1 ≠ k := by
        intro hh; exact h (by simp [hh])
      have h2 : k ∉ rest.map Prod.fst := by
        intro hh; exact h (by simp [hh])
      simp [getField, h1, ih h2]

/-- Lookup in a spread: a key present in `b` (which has unique keys,
as every JS object does) gets `b`'s value, any other key keeps `a`'s. -/
theorem getField_spreadInto (a b : Obj) (k : String)
    (hnd : (b.map Prod.fst).Nodup) :
    getField (spreadInto a b) k =
      match getField b k with
      | some v => some v
      | none => getField a k := by
  induction b generalizing a with
  | nil => simp
  | cons p tl ih =>
      have hnd' : (p.1 :: tl.map Prod.fst).Nodup := by
        rw [List.map_cons] at hnd; exact hnd
      obtain ⟨hnotin, hndtl⟩ := List.nodup_cons.mp hnd'
      rw [spreadInto_cons, ih _ hndtl]
      by_cases hk : p.1 = k
      · subst hk
        rw [getField_eq_none_of_not_mem tl p.1 hnotin]
        simp [getField_cons]
      · have : getField (p :: tl) k = getField tl k := by
          simp [getField_cons, hk]
        rw [this, getField_setField_ne _ _ _ _ (fun hh => hk hh.symm)]

theorem setField_setField_same (o : Obj) (k : String) (v v' : JVal) :
    setField (setField o k v) k v' = setField o k v' := by
  induction o with
  | nil => simp [setField]
  | cons p rest ih =>
      by_cases h : p.1 = k
      · simp [setField, h]
      · simp [setField, h, ih]

/-- Exceptions the server code can throw. -/
inductive JsError where
  | typeError : String → JsError
deriving Repr

/-- Semantics of the expression `new Error().toISOString()` on line 77 of
`server.js`: `Error` instances have no `toISOString` method, so the member
access yields `undefined` and the call throws a `TypeError`. -/
def errorToISOString : Except JsError String :=
  .error (JsError.typeError "toISOString is not a function")

/-- File-system events produced by a handler: `readDB` performs one full
read of `database.json`, `writeDB` one full write (`server.js` lines
51-53). -/
inductive FsEv where
  | read : FsEv
  | write : FsEv
deriving Repr, DecidableEq

/-- What a handler hands back to Express: a JSON response with a status
code (`res.json` / `res.status(...).json`), or an uncaught exception,
which Express turns into a 500 with no handler-produced write. -/
inductive Outcome where
  | json : Nat → JVal → Outcome
  | thrown : JsError → Outcome
deriving Repr

/-- Result of running one request handler: the file-system event trace,
the state of `database.json` when the handler is done (unchanged unless a
write happened), and the outcome sent to the client. -/
structure HandlerOut where
  events : List FsEv
  db : Obj
  outcome : Outcome

/-- Predicate used by `findIndex` / `filter` in `setupCRUD`:
`item.id === req.params.id`.  Strict equality of a property (a string
when the record was stored by this server) against the path id, which is
always a string; a missing or non-string `id` is never `===` a string. -/
def itemIdEq (item : JVal) (idp : String) : Bool :=
  match item with
  | JVal.obj o =>
      match getField o "id" with
      | some (JVal.str s) => s == idp
      | _ => false
  | _ => false

/-- Record literal of `setupCRUD`'s create handler (line 77), factored
over the value of the `created_at` subexpression:
`\x7b id: Date.now().toString(), ...req.body, created_at: ts \x7d`.
The spread comes after `id` and before `created_at`. -/
def newItemWith (now : Nat) (ts : String) (body : Obj) : Obj :=
  setField (spreadInto [("id", JVal.str (toString now))] body)
    "created_at" (JVal.str ts)

/-- Evaluation of the full record literal on line 77.  The properties are
evaluated left to right: the id, then the spread of the body, then
`created_at`, whose subexpression `new Error().toISOString()` throws. -/
def newItemExpr (now : Nat) (body : Obj) : Except JsError Obj :=
  match errorToISOString with
  | .error e => .error e
  | .ok ts => .ok (newItemWith now ts body)

/-- GET `/api/\x7bresource\x7d` (setupCRUD, lines 70-73): read the
document and return `db[resource]` verbatim (`none` models the
`undefined` an unknown field yields). -/
def listGet (resource : String) (db : Obj) : Option JVal :=
  getField db resource

/-- POST `/api/\x7bresource\x7d` (setupCRUD, lines 75-85): read, build
the new record, append it when the field is an array, otherwise replace
the field, write, return the record.  The record literal throws while
being evaluated (see `errorToISOString`), so the handler never reaches
the write. -/
def createPost (now : Nat) (resource : String) (body : Obj) (db : Obj) :
    HandlerOut :=
  match newItemExpr now body with
  | .error e => { events := [FsEv.read], db := db, outcome := Outcome.thrown e }
  | .ok item =>
      let db' :=
        match getField db resource with
        | some (JVal.arr xs) => setField db resource (JVal.arr (xs ++ [JVal.obj item]))
        | _ => setField db resource (JVal.obj item)
      { events := [FsEv.read, FsEv.write], db := db'
        outcome := Outcome.json 200 (JVal.obj item) }

/-- Shallow merge `\x7b ...old, ...req.body \x7d` of the update handler
(line 91).  When the existing element is an object its fields are spread
first; a non-object contributes no own enumerable fields (records stored
by this server are always objects). -/
def mergeVal (old : JVal) (body : Obj) : JVal :=
  match old with
  | JVal.obj o => JVal.obj (spreadInto o body)
  | _ => JVal.obj (spreadInto [] body)

/-- PUT `/api/\x7bresource\x7d/:id` (setupCRUD, lines 87-97): find the
index of the element whose `id` strictly equals the path id; if found,
replace it by the shallow merge with the body, write, and return the
merged record; otherwise respond 404 and do not write.  `findIndex` on a
non-array value throws. -/
def updatePut (resource idp : String) (body : Obj) (db : Obj) : HandlerOut :=
  match getField db resource with
  | some (JVal.arr xs) =>
      match xs.findIdx? (fun it => itemIdEq it idp) with
      | some i =>
          let merged := mergeVal (xs.getD i JVal.null) body
          { events := [FsEv.read, FsEv.write]
            db := setField db resource (JVal.arr (xs.set i merged))
            outcome := Outcome.json 200 merged }
      | none =>
          { events := [FsEv.read], db := db
            outcome := Outcome.json 404 (JVal.obj [("error", JVal.str "Not found")]) }
  | _ =>
      { events := [FsEv.read], db := db
        outcome := Outcome.thrown (JsError.typeError "findIndex is not a function") }

/-- DELETE `/api/\x7bresource\x7d/:id` (setupCRUD, lines 99-104): keep
the elements whose `id` is not strictly equal to the path id, write, and
report success unconditionally.  `filter` on a non-array value throws. -/
def deleteDel (resource idp : String) (db : Obj) : HandlerOut :=
  match getField db resource with
  | some (JVal.arr xs) =>
      { events := [FsEv.read, FsEv.write]
        db := setField db resource (JVal.arr (xs.filter (fun it => ! itemIdEq it idp)))
        outcome := Outcome.json 200 (JVal.obj [("success", JVal.bool true)]) }
  | _ =>
      { events := [FsEv.read], db := db
        outcome := Outcome.thrown (JsError.typeError "filter is not a function") }

/-- GET `/api/hero` (lines 115-118): return `db.hero` verbatim. -/
def heroGet (db : Obj) : Option JVal :=
  getField db "hero"

/-- PUT `/api/hero` (lines 120-125): `db.hero = \x7b ...db.hero,
...req.body \x7d`, write, and return the merged singleton. -/
def heroPut (body : Obj) (db : Obj) : HandlerOut :=
  let merged := mergeVal ((getField db "hero").getD JVal.undef) body
  { events := [FsEv.read, FsEv.write]
    db := setField db "hero" merged
    outcome := Outcome.json 200 merged }

/-- Strict equality `===` as the login handler uses it.  Primitives
compare by value and by type; two values of different types are never
`===`; arrays and objects compare by reference, and since a request body
is freshly parsed its arrays/objects are never the same reference as
anything stored, so those comparisons are `false` here. -/
def strictEqPrim : JVal → JVal → Bool
  | JVal.str a, JVal.str b => a == b
  | JVal.num a, JVal.num b => a == b
  | JVal.bool a, JVal.bool b => a == b
  | JVal.null, JVal.null => true
  | JVal.undef, JVal.undef => true
  | _, _ => false

/-- Property access `v.k` on an arbitrary value: objects look the field
up, `null`/`undefined` throw a `TypeError`, other values (boxed
primitives, arrays without that field) yield `undefined`. -/
def propAccess : JVal → String → Except JsError JVal
  | JVal.obj o, k => .ok ((getField o k).getD JVal.undef)
  | JVal.null, _ => .error (JsError.typeError "cannot read properties of null")
  | JVal.undef, _ => .error (JsError.typeError "cannot read properties of undefined")
  | _, _ => .ok JVal.undef

/-- POST `/api/login` (lines 58-66): destructure `username`/`password`
from the body and test `db.admin.username === username &&
db.admin.password === password`; `&&` short-circuits, so the password
property is only read when the username matched. -/
def loginPost (body : Obj) (db : Obj) : HandlerOut :=
  let adminV := (getField db "admin").getD JVal.undef
  let u := (getField body "username").getD JVal.undef
  let p := (getField body "password").getD JVal.undef
  match propAccess adminV "username" with
  | .error e => { events := [FsEv.read], db := db, outcome := Outcome.thrown e }
  | .ok au =>
      if strictEqPrim au u then
        match propAccess adminV "password" with
        | .error e => { events := [FsEv.read], db := db, outcome := Outcome.thrown e }
        | .ok ap =>
            if strictEqPrim ap p then
              { events := [FsEv.read], db := db
                outcome := Outcome.json 200 (JVal.obj [("success", JVal.bool true)]) }
            else
              { events := [FsEv.read], db := db
                outcome := Outcome.json 401 (JVal.obj
                  [("success", JVal.bool false),
                   ("message", JVal.str "Invalid credentials")]) }
      else
        { events := [FsEv.read], db := db
          outcome := Outcome.json 401 (JVal.obj
            [("success", JVal.bool false),
             ("message", JVal.str "Invalid credentials")]) }

/-- JS truthiness: `undefined`, `null`, `""`, `0` and `false` are falsy;
everything else the server can see is truthy (our numbers are integers,
so there is no `NaN`). -/
def truthy : JVal → Bool
  | JVal.str s => !(s == "")
  | JVal.num n => !(n == 0)
  | JVal.bool b => b
  | JVal.null => false
  | JVal.undef => false
  | JVal.arr _ => true
  | JVal.obj _ => true

/-- The JS `||` operator: `a || b` is `a` when `a` is truthy, else `b`
(used for `phone || "N/A"` and `company || "N/A"` on lines 136/138). -/
def jsOr (a b : JVal) : JVal :=
  if truthy a then a else b

/-- The `newMessage` record literal of the contact handler (lines
133-141): id from `Date.now()`, the five destructured body fields with
`phone` and `company` defaulted through `||`, and a `created_at` from
`new Date().toISOString()` (here the timestamp evaluates fine). -/
def contactRecord (now : Nat) (ts : String) (body : Obj) : Obj :=
  [("id", JVal.str (toString now)),
   ("name", (getField body "name").getD JVal.undef),
   ("phone", jsOr ((getField body "phone").getD JVal.undef) (JVal.str "N/A")),
   ("email", (getField body "email").getD JVal.undef),
   ("company", jsOr ((getField body "company").getD JVal.undef) (JVal.str "N/A")),
   ("message", (getField body "message").getD JVal.undef),
   ("created_at", JVal.str ts)]

/-- Result of the contact handler: on top of the usual handler result it
records whether `transporter.sendMail` was invoked and the console log
lines, which are the only place the send outcome is visible. -/
structure ContactOut where
  events : List FsEv
  db : Obj
  outcome : Outcome
  sendAttempted : Bool
  log : List String

/-- POST `/api/contact` (lines 128-182): build `newMessage`, push it onto
`db.messages` and write; only then call `sendMail`, whose callback merely
logs success or failure.  The 200 response is sent right after the
`sendMail` call, independent of the send outcome.  Any exception inside
the `try` — `db.messages.push` on a missing/non-array field, or a failing
`writeDB` (modelled by the environment flag `writeOk`) — is caught and
turned into a 500, and `sendMail` is never reached.  `sendOk` is the
environment's verdict on the send attempt. -/
def contactPost (now : Nat) (ts : String) (writeOk sendOk : Bool)
    (body : Obj) (db : Obj) : ContactOut :=
  let newMessage := contactRecord now ts body
  match getField db "messages" with
  | some (JVal.arr xs) =>
      if writeOk then
        { events := [FsEv.read, FsEv.write]
          db := setField db "messages" (JVal.arr (xs ++ [JVal.obj newMessage]))
          outcome := Outcome.json 200 (JVal.obj
            [("success", JVal.bool true), ("message", JVal.str "Message received")])
          sendAttempted := true
          log := ["Message stored in database",
                  if sendOk then "Email sent" else "Email failed to send"] }
      else
        { events := [FsEv.read], db := db
          outcome := Outcome.json 500 (JVal.obj
            [("success", JVal.bool false), ("message", JVal.str "Submission failed")])
          sendAttempted := false
          log := ["Contact submission failed"] }
  | _ =>
      { events := [FsEv.read], db := db
        outcome := Outcome.json 500 (JVal.obj
          [("success", JVal.bool false), ("message", JVal.str "Submission failed")])
        sendAttempted := false
        log := ["Contact submission failed"] }

/-- A concrete `database.json` in the shape described by the data model,
used to instantiate theorems with hypotheses. -/
def sampleDb : Obj :=
  [("admin", JVal.obj [("username", JVal.str "admin"), ("password", JVal.str "secret")]),
   ("hero", JVal.obj [("title", JVal.str "Welcome"), ("subtitle", JVal.str "We build things")]),
   ("posts", JVal.arr
     [JVal.obj [("id", JVal.str "100"), ("title", JVal.str "First post"),
                ("created_at", JVal.str "2024-01-01T00:00:00.000Z")],
      JVal.obj [("id", JVal.str "200"), ("title", JVal.str "Second post"),
                ("created_at", JVal.str "2024-02-01T00:00:00.000Z")]]),
   ("services", JVal.arr []),
   ("metrics", JVal.arr []),
   ("process", JVal.arr []),
   ("messages", JVal.arr [])]

theorem filter_idem {α : Type} (p : α → Bool) (l : List α) :
    (l.filter p).filter p = l.filter p := by
  rw [List.filter_filter]
  induction l with
  | nil => rfl
  | cons a tl ih =>
      by_cases h : p a = true
      · simp [List.filter_cons, h, ih]
      · simp [List.filter_cons, h, ih]

/-- C1: Create on every collection resource is claimed to return the
submitted fields plus a fresh id and an ISO-8601 `created_at`, with a
subsequent List including the record.  The code instead evaluates
`new Error().toISOString()` (line 77) — `Error` has no `toISOString` —
so every Create throws before the record is built: nothing is returned,
nothing is written.  The intent (`new Date().toISOString()`, as on line
140) is clear, so this is a bug in the code, proved here by showing the
handler always throws and the document is untouched. -/
theorem c1_create_always_throws (now : Nat) (resource : String) (body db : Obj) :
    (createPost now resource body db).outcome
      = Outcome.thrown (JsError.typeError "toISOString is not a function")
  ∧ (createPost now resource body db).events = [FsEv.read]
  ∧ (createPost now resource body db).db = db :=
  ⟨rfl, rfl, rfl⟩

/-- C10 counterexample: a create whose body carries `id: "custom"` stores
and returns nothing — the handler throws while evaluating the record
literal and the document is unchanged — so the claimed "record stored and
returned carries the caller-supplied id" fails at this input. -/
theorem c10_counterexample :
    (createPost 1730000000123 "posts" [("id", JVal.str "custom")] sampleDb).outcome
      = Outcome.thrown (JsError.typeError "toISOString is not a function")
  ∧ (createPost 1730000000123 "posts" [("id", JVal.str "custom")] sampleDb).db = sampleDb :=
  ⟨rfl, rfl⟩

/-- C10 amended: in the create record literal the caller body is spread
after the generated id (and before `created_at`), so the constructed
record carries a caller-supplied `id` whenever the body has one — the
store does not enforce a server-generated id; as written, however, the
`created_at` subexpression throws before the literal is completed, so
the create handler stores and returns no record at all. -/
theorem c10_amended (now : Nat) (ts : String) (resource : String) (body db : Obj)
    (v : JVal) (hnd : (body.map Prod.fst).Nodup)
    (h : getField body "id" = some v) :
    getField (newItemWith now ts body) "id" = some v
  ∧ (createPost now resource body db).events = [FsEv.read]
  ∧ (createPost now resource body db).db = db := by
  refine ⟨?_, rfl, rfl⟩
  unfold newItemWith
  rw [getField_setField_ne _ _ _ _ (by decide), getField_spreadInto _ _ _ hnd, h]

/-- Witness for `c10_amended` at a concrete body carrying an id. -/
theorem c10_amended_witness :
    getField (newItemWith 5 "T" [("id", JVal.str "custom")]) "id"
      = some (JVal.str "custom")
  ∧ (createPost 5 "posts" [("id", JVal.str "custom")] sampleDb).events = [FsEv.read]
  ∧ (createPost 5 "posts" [("id", JVal.str "custom")] sampleDb).db = sampleDb :=
  c10_amended 5 "T" "posts" [("id", JVal.str "custom")] sampleDb
    (JVal.str "custom") (by decide) rfl

/-- C3: Update with an id matching no record in the collection responds
404 with the Not-Found body, performs no write (the event trace is just
the read), and the document — hence any subsequent List — is unchanged. -/
theorem c3_update_notfound (resource idp : String) (body db : Obj) (xs : List JVal)
    (harr : getField db resource = some (JVal.arr xs))
    (hnone : ∀ it ∈ xs, itemIdEq it idp = false) :
    (updatePut resource idp body db).outcome
      = Outcome.json 404 (JVal.obj [("error", JVal.str "Not found")])
  ∧ (updatePut resource idp body db).events = [FsEv.read]
  ∧ (updatePut resource idp body db).db = db
  ∧ listGet resource (updatePut resource idp body db).db = listGet resource db := by
  have hidx : xs.findIdx? (fun it => itemIdEq it idp) = none :=
    List.findIdx?_eq_none_iff.mpr hnone
  refine ⟨?_, ?_, ?_, ?_⟩ <;> simp [updatePut, harr, hidx]

/-- Witness for `c3_update_notfound`: updating id "999", which no post
has, on the sample document. -/
theorem c3_update_notfound_witness :
    (updatePut "posts" "999" [("title", JVal.str "X")] sampleDb).outcome
      = Outcome.json 404 (JVal.obj [("error", JVal.str "Not found")])
  ∧ (updatePut "posts" "999" [("title", JVal.str "X")] sampleDb).events = [FsEv.read]
  ∧ (updatePut "posts" "999" [("title", JVal.str "X")] sampleDb).db = sampleDb
  ∧ listGet "posts" (updatePut "posts" "999" [("title", JVal.str "X")] sampleDb).db
      = listGet "posts" sampleDb := by
  have h := c3_update_notfound "posts" "999" [("title", JVal.str "X")] sampleDb
    [JVal.obj [("id", JVal.str "100"), ("title", JVal.str "First post"),
               ("created_at", JVal.str "2024-01-01T00:00:00.000Z")],
     JVal.obj [("id", JVal.str "200"), ("title", JVal.str "Second post"),
               ("created_at", JVal.str "2024-02-01T00:00:00.000Z")]]
    rfl (by intro it hit; fin_cases hit <;> rfl)
  exact h

/-- C4: Delete keeps exactly the elements whose id is not strictly equal
to the supplied id, in their original relative order (the result is a
sublist), reports success whether or not anything matched, and is
idempotent: a second delete of the same id succeeds and changes nothing. -/
theorem c4_delete_idempotent (resource idp : String) (db : Obj) (xs : List JVal)
    (harr : getField db resource = some (JVal.arr xs)) :
    getField (deleteDel resource idp db).db resource
      = some (JVal.arr (xs.filter (fun it => ! itemIdEq it idp)))
  ∧ (deleteDel resource idp db).outcome
      = Outcome.json 200 (JVal.obj [("success", JVal.bool true)])
  ∧ (xs.filter (fun it => ! itemIdEq it idp)).Sublist xs
  ∧ (∀ it, it ∈ xs.filter (fun it => ! itemIdEq it idp)
        ↔ (it ∈ xs ∧ itemIdEq it idp = false))
  ∧ (deleteDel resource idp (deleteDel resource idp db).db).outcome
      = Outcome.json 200 (JVal.obj [("success", JVal.bool true)])
  ∧ (deleteDel resource idp (deleteDel resource idp db).db).db
      = (deleteDel resource idp db).db := by
  have main : ∀ (db' : Obj) (ys : List JVal),
      getField db' resource = some (JVal.arr ys) →
      (deleteDel resource idp db').outcome
          = Outcome.json 200 (JVal.obj [("success", JVal.bool true)])
        ∧ (deleteDel resource idp db').db
          = setField db' resource (JVal.arr (ys.filter (fun it => ! itemIdEq it idp))) := by
    intro db' ys h
    constructor <;> simp [deleteDel, h]
  have hdb1 := (main db xs harr).2
  have hget1 : getField (deleteDel resource idp db).db resource
      = some (JVal.arr (xs.filter (fun it => ! itemIdEq it idp))) := by
    rw [hdb1, getField_setField_self]
  have h2 := main (deleteDel resource idp db).db
    (xs.filter (fun it => ! itemIdEq it idp)) hget1
  refine ⟨hget1, (main db xs harr).1, List.filter_sublist xs, ?_, h2.1, ?_⟩
  · intro it
    rw [List.mem_filter]
    simp
  · rw [h2.2, hdb1, filter_idem, setField_setField_same]

/-- Witness for `c4_delete_idempotent`: deleting post id "100" from the
sample document. -/
theorem c4_delete_idempotent_witness :
    getField (deleteDel "posts" "100" sampleDb).db "posts"
      = some (JVal.arr [JVal.obj [("id", JVal.str "200"), ("title", JVal.str "Second post"),
                                  ("created_at", JVal.str "2024-02-01T00:00:00.000Z")]])
  ∧ (deleteDel "posts" "100" sampleDb).outcome
      = Outcome.json 200 (JVal.obj [("success", JVal.bool true)])
  ∧ (deleteDel "posts" "100" (deleteDel "posts" "100" sampleDb).db).outcome
      = Outcome.json 200 (JVal.obj [("success", JVal.bool true)])
  ∧ (deleteDel "posts" "100" (deleteDel "posts" "100" sampleDb).db).db
      = (deleteDel "posts" "100" sampleDb).db := by
  have h := c4_delete_idempotent "posts" "100" sampleDb
    [JVal.obj [("id", JVal.str "100"), ("title", JVal.str "First post"),
               ("created_at", JVal.str "2024-01-01T00:00:00.000Z")],
     JVal.obj [("id", JVal.str "200"), ("title", JVal.str "Second post"),
               ("created_at", JVal.str "2024-02-01T00:00:00.000Z")]]
    rfl
  exact ⟨h.1, h.2.1, h.2.2.2.2.1, h.2.2.2.2.2⟩

/-- C2: Update on an existing id replaces the found record by the
shallow merge of the body over it, writes the document back with only
that element changed, and returns the merged record; fields absent from
the body keep their prior values and fields present in the body win —
in particular `id` and `created_at` persist unless the body carries
them. -/
theorem c2_update_merge (resource idp : String) (body db : Obj) (xs : List JVal)
    (i : Nat) (orec : Obj)
    (harr : getField db resource = some (JVal.arr xs))
    (hidx : xs.findIdx? (fun it => itemIdEq it idp) = some i)
    (hold : xs[i]? = some (JVal.obj orec))
    (hnd : (body.map Prod.fst).Nodup) :
    (updatePut resource idp body db).outcome
      = Outcome.json 200 (JVal.obj (spreadInto orec body))
  ∧ (updatePut resource idp body db).db
      = setField db resource (JVal.arr (xs.set i (JVal.obj (spreadInto orec body))))
  ∧ (updatePut resource idp body db).events = [FsEv.read, FsEv.write]
  ∧ (∀ k : String, getField body k = none →
      getField (spreadInto orec body) k = getField orec k)
  ∧ (∀ (k : String) (v : JVal), getField body k = some v →
      getField (spreadInto orec body) k = some v) := by
  refine ⟨?_, ?_, ?_, ?_, ?_⟩
  · simp [updatePut, harr, hidx, hold, mergeVal]
  · simp [updatePut, harr, hidx, hold, mergeVal]
  · simp [updatePut, harr, hidx]
  · intro k hk
    rw [getField_spreadInto _ _ _ hnd, hk]
  · intro k v hk
    rw [getField_spreadInto _ _ _ hnd, hk]

/-- Witness for `c2_update_merge`: updating post "100" of the sample
document with a new title; the title is overwritten while `id` and
`created_at`, absent from the body, keep their prior values. -/
theorem c2_update_merge_witness :
    (updatePut "posts" "100" [("title", JVal.str "Updated")] sampleDb).outcome
      = Outcome.json 200 (JVal.obj
          [("id", JVal.str "100"), ("title", JVal.str "Updated"),
           ("created_at", JVal.str "2024-01-01T00:00:00.000Z")])
  ∧ getField (spreadInto
        [("id", JVal.str "100"), ("title", JVal.str "First post"),
         ("created_at", JVal.str "2024-01-01T00:00:00.000Z")]
        [("title", JVal.str "Updated")]) "id" = some (JVal.str "100")
  ∧ getField (spreadInto
        [("id", JVal.str "100"), ("title", JVal.str "First post"),
         ("created_at", JVal.str "2024-01-01T00:00:00.000Z")]
        [("title", JVal.str "Updated")]) "title" = some (JVal.str "Updated") := by
  have h := c2_update_merge "posts" "100" [("title", JVal.str "Updated")] sampleDb
    [JVal.obj [("id", JVal.str "100"), ("title", JVal.str "First post"),
               ("created_at", JVal.str "2024-01-01T00:00:00.000Z")],
     JVal.obj [("id", JVal.str "200"), ("title", JVal.str "Second post"),
               ("created_at", JVal.str "2024-02-01T00:00:00.000Z")]]
    0
    [("id", JVal.str "100"), ("title", JVal.str "First post"),
     ("created_at", JVal.str "2024-01-01T00:00:00.000Z")]
    rfl rfl rfl (by decide)
  exact ⟨h.1, h.2.2.2.1 "id" rfl, h.2.2.2.2 "title" (JVal.str "Updated") rfl⟩

/-- C7: the hero singleton update merges the body over the existing hero
object, writes it back, and returns exactly the full merged object — the
response equals the stored singleton, and every field the body does not
mention is still present with its prior value, so the response is never a
partial object of only the supplied fields. -/
theorem c7_hero_full_merge (body db : Obj) (h0 : Obj)
    (hh : getField db "hero" = some (JVal.obj h0))
    (hnd : (body.map Prod.fst).Nodup) :
    (heroPut body db).outcome = Outcome.json 200 (JVal.obj (spreadInto h0 body))
  ∧ (heroPut body db).db = setField db "hero" (JVal.obj (spreadInto h0 body))
  ∧ getField (heroPut body db).db "hero" = some (JVal.obj (spreadInto h0 body))
  ∧ (∀ k : String, getField body k = none →
      getField (spreadInto h0 body) k = getField h0 k)
  ∧ (∀ (k : String) (v : JVal), getField body k = some v →
      getField (spreadInto h0 body) k = some v) := by
  refine ⟨?_, ?_, ?_, ?_, ?_⟩
  · simp [heroPut, hh, mergeVal]
  · simp [heroPut, hh, mergeVal]
  · simp [heroPut, hh, mergeVal, getField_setField_self]
  · intro k hk
    rw [getField_spreadInto _ _ _ hnd, hk]
  · intro k v hk
    rw [getField_spreadInto _ _ _ hnd, hk]

/-- Witness for `c7_hero_full_merge`: updating only the hero title keeps
the untouched subtitle in both the response and the stored document. -/
theorem c7_hero_full_merge_witness :
    (heroPut [("title", JVal.str "New title")] sampleDb).outcome
      = Outcome.json 200 (JVal.obj
          [("title", JVal.str "New title"), ("subtitle", JVal.str "We build things")])
  ∧ getField (spreadInto
        [("title", JVal.str "Welcome"), ("subtitle", JVal.str "We build things")]
        [("title", JVal.str "New title")]) "subtitle"
      = some (JVal.str "We build things") := by
  have h := c7_hero_full_merge [("title", JVal.str "New title")] sampleDb
    [("title", JVal.str "Welcome"), ("subtitle", JVal.str "We build things")]
    rfl (by decide)
  exact ⟨h.1, h.2.2.2.1 "subtitle" rfl⟩

theorem strictEqPrim_str_iff (u : String) (x : JVal) :
    strictEqPrim (JVal.str u) x = true ↔ x = JVal.str u := by
  cases x with
  | str b =>
      simp only [strictEqPrim, beq_iff_eq, JVal.str.injEq]
      exact eq_comm
  | num b => simp [strictEqPrim]
  | bool b => simp [strictEqPrim]
  | null => simp [strictEqPrim]
  | undef => simp [strictEqPrim]
  | arr l => simp [strictEqPrim]
  | obj o => simp [strictEqPrim]

theorem getD_undef_eq_str_iff (o : Option JVal) (u : String) :
    o.getD JVal.undef = JVal.str u ↔ o = some (JVal.str u) := by
  cases o <;> simp

/-- C8: login succeeds — responds 200 with success true — exactly when
the body's `username` and `password` are both the verbatim (string,
case-sensitive) stored admin credentials; on any mismatch of either
field the handler responds 401 with success false and the invalid
credentials message. -/
theorem c8_login_exact_match (body db : Obj) (a : Obj) (u p : String)
    (ha : getField db "admin" = some (JVal.obj a))
    (hu : getField a "username" = some (JVal.str u))
    (hp : getField a "password" = some (JVal.str p)) :
    ((loginPost body db).outcome = Outcome.json 200 (JVal.obj [("success", JVal.bool true)])
      ↔ (getField body "username" = some (JVal.str u)
          ∧ getField body "password" = some (JVal.str p)))
  ∧ (¬ (getField body "username" = some (JVal.str u)
          ∧ getField body "password" = some (JVal.str p)) →
      (loginPost body db).outcome = Outcome.json 401 (JVal.obj
        [("success", JVal.bool false), ("message", JVal.str "Invalid credentials")])) := by
  have hau : propAccess ((getField db "admin").getD JVal.undef) "username"
      = Except.ok (JVal.str u) := by
    rw [ha]; simp [propAccess, hu]
  have hap : propAccess ((getField db "admin").getD JVal.undef) "password"
      = Except.ok (JVal.str p) := by
    rw [ha]; simp [propAccess, hp]
  by_cases hbu : (getField body "username").getD JVal.undef = JVal.str u
  · by_cases hbp : (getField body "password").getD JVal.undef = JVal.str p
    · have hout : (loginPost body db).outcome
          = Outcome.json 200 (JVal.obj [("success", JVal.bool true)]) := by
        simp [loginPost, hau, hap, (strictEqPrim_str_iff u _).mpr hbu,
          (strictEqPrim_str_iff p _).mpr hbp]
      constructor
      · rw [hout]
        simp [← getD_undef_eq_str_iff, hbu, hbp]
      · intro hcon
        exact absurd ⟨(getD_undef_eq_str_iff _ u).mp hbu,
          (getD_undef_eq_str_iff _ p).mp hbp⟩ hcon
    · have hne : strictEqPrim (JVal.str p) ((getField body "password").getD JVal.undef)
          = false := by
        rw [← Bool.not_eq_true]
        simp [strictEqPrim_str_iff, hbp]
      have hout : (loginPost body db).outcome = Outcome.json 401 (JVal.obj
          [("success", JVal.bool false), ("message", JVal.str "Invalid credentials")]) := by
        simp [loginPost, hau, hap, (strictEqPrim_str_iff u _).mpr hbu, hne]
      constructor
      · rw [hout]
        constructor
        · intro h; cases h
        · intro h
          exact absurd ((getD_undef_eq_str_iff _ p).mpr h.2) hbp
      · intro _; exact hout
  · have hne : strictEqPrim (JVal.str u) ((getField body "username").getD JVal.undef)
        = false := by
      rw [← Bool.not_eq_true]
      simp [strictEqPrim_str_iff, hbu]
    have hout : (loginPost body db).outcome = Outcome.json 401 (JVal.obj
        [("success", JVal.bool false), ("message", JVal.str "Invalid credentials")]) := by
      simp [loginPost, hau, hne]
    constructor
    · rw [hout]
      constructor
      · intro h; cases h
      · intro h
        exact absurd ((getD_undef_eq_str_iff _ u).mpr h.1) hbu
    · intro _; exact hout

/-- Witness for `c8_login_exact_match`: on the sample document the exact
credential pair logs in and a wrong password is rejected with 401. -/
theorem c8_login_exact_match_witness :
    (loginPost [("username", JVal.str "admin"), ("password", JVal.str "secret")]
        sampleDb).outcome
      = Outcome.json 200 (JVal.obj [("success", JVal.bool true)])
  ∧ (loginPost [("username", JVal.str "admin"), ("password", JVal.str "Secret")]
        sampleDb).outcome
      = Outcome.json 401 (JVal.obj
          [("success", JVal.bool false), ("message", JVal.str "Invalid credentials")]) := by
  have hok := c8_login_exact_match
    [("username", JVal.str "admin"), ("password", JVal.str "secret")] sampleDb
    [("username", JVal.str "admin"), ("password", JVal.str "secret")]
    "admin" "secret" rfl rfl rfl
  have hno := c8_login_exact_match
    [("username", JVal.str "admin"), ("password", JVal.str "Secret")] sampleDb
    [("username", JVal.str "admin"), ("password", JVal.str "secret")]
    "admin" "secret" rfl rfl rfl
  refine ⟨hok.1.mpr ⟨rfl, rfl⟩, hno.2 ?_⟩
  intro h
  have h2 : some (JVal.str "Secret") = some (JVal.str "secret") := h.2
  have h3 : ("Secret" : String) = "secret" := by
    injection h2 with h2'
    injection h2'
  exact absurd h3 (by decide)

/-- C5: the notification send's outcome never changes the contact
response — with persistence succeeding, the handler responds 200 with the
same body, document state, and send-attempt flag whether the send
succeeds or fails; and whenever persistence fails (the write throws, for
any body and any document), the caller gets the generic 500 submission
failure, the send is never attempted, and the document is unchanged. -/
theorem c5_contact_send_isolated (now : Nat) (ts : String) (sendOk1 sendOk2 : Bool)
    (body db : Obj) (xs : List JVal)
    (hm : getField db "messages" = some (JVal.arr xs)) :
    ((contactPost now ts true sendOk1 body db).outcome
        = Outcome.json 200 (JVal.obj
            [("success", JVal.bool true), ("message", JVal.str "Message received")])
      ∧ (contactPost now ts true sendOk2 body db).outcome
        = (contactPost now ts true sendOk1 body db).outcome
      ∧ (contactPost now ts true sendOk2 body db).db
        = (contactPost now ts true sendOk1 body db).db
      ∧ (contactPost now ts true sendOk2 body db).sendAttempted
        = (contactPost now ts true sendOk1 body db).sendAttempted)
  ∧ (∀ (body' db' : Obj) (sendOk : Bool),
        (contactPost now ts false sendOk body' db').outcome
          = Outcome.json 500 (JVal.obj
              [("success", JVal.bool false), ("message", JVal.str "Submission failed")])
      ∧ (contactPost now ts false sendOk body' db').sendAttempted = false
      ∧ (contactPost now ts false sendOk body' db').db = db') := by
  constructor
  · refine ⟨?_, ?_, ?_, ?_⟩ <;> simp [contactPost, hm]
  · intro body' db' sendOk
    refine ⟨?_, ?_, ?_⟩ <;> · unfold contactPost; split <;> simp

/-- Witness for `c5_contact_send_isolated` on the sample document. -/
theorem c5_contact_send_isolated_witness :
    ((contactPost 7 "2024-03-01T00:00:00.000Z" true true
        [("name", JVal.str "A")] sampleDb).outcome
      = Outcome.json 200 (JVal.obj
          [("success", JVal.bool true), ("message", JVal.str "Message received")]))
  ∧ ((contactPost 7 "2024-03-01T00:00:00.000Z" true false
        [("name", JVal.str "A")] sampleDb).outcome
      = (contactPost 7 "2024-03-01T00:00:00.000Z" true true
          [("name", JVal.str "A")] sampleDb).outcome)
  ∧ ((contactPost 7 "2024-03-01T00:00:00.000Z" false true
        [("name", JVal.str "A")] sampleDb).outcome
      = Outcome.json 500 (JVal.obj
          [("success", JVal.bool false), ("message", JVal.str "Submission failed")]))
  ∧ ((contactPost 7 "2024-03-01T00:00:00.000Z" false true
        [("name", JVal.str "A")] sampleDb).sendAttempted = false) := by
  have h := c5_contact_send_isolated 7 "2024-03-01T00:00:00.000Z" true false
    [("name", JVal.str "A")] sampleDb [] rfl
  have h2 := h.2 [("name", JVal.str "A")] sampleDb true
  exact ⟨h.1.1, h.1.2.1, h2.1, h2.2.1⟩

/-- C6 counterexample: a contact body carrying `phone: 0` has a value
present, yet the stored record's phone field is the string "N/A", not
the value verbatim — the default kicks in for every JS-falsy value, not
only for absent or empty ones. -/
theorem c6_counterexample :
    getField [("phone", JVal.num 0)] "phone" = some (JVal.num 0)
  ∧ getField (contactRecord 9 "2024-03-01T00:00:00.000Z" [("phone", JVal.num 0)]) "phone"
      = some (JVal.str "N/A")
  ∧ JVal.str "N/A" ≠ JVal.num 0 := by
  refine ⟨rfl, rfl, ?_⟩
  intro h
  cases h

/-- C6 amended: the contact record is appended to the messages
collection with the generated id and `created_at`; `phone` and `company`
are stored as the literal "N/A" whenever the supplied value is JS-falsy
— absent, empty string, and also `null`, `0` or `false` — and verbatim
whenever the supplied value is truthy. -/
theorem c6_contact_na_defaults (now : Nat) (ts : String) (sendOk : Bool)
    (body db : Obj) (xs : List JVal)
    (hm : getField db "messages" = some (JVal.arr xs)) :
    getField (contactPost now ts true sendOk body db).db "messages"
      = some (JVal.arr (xs ++ [JVal.obj (contactRecord now ts body)]))
  ∧ getField (contactRecord now ts body) "id" = some (JVal.str (toString now))
  ∧ getField (contactRecord now ts body) "created_at" = some (JVal.str ts)
  ∧ (truthy ((getField body "phone").getD JVal.undef) = false →
      getField (contactRecord now ts body) "phone" = some (JVal.str "N/A"))
  ∧ (∀ v : JVal, getField body "phone" = some v → truthy v = true →
      getField (contactRecord now ts body) "phone" = some v)
  ∧ (truthy ((getField body "company").getD JVal.undef) = false →
      getField (contactRecord now ts body) "company" = some (JVal.str "N/A"))
  ∧ (∀ v : JVal, getField body "company" = some v → truthy v = true →
      getField (contactRecord now ts body) "company" = some v) := by
  have hphone : getField (contactRecord now ts body) "phone"
      = some (jsOr ((getField body "phone").getD JVal.undef) (JVal.str "N/A")) := rfl
  have hcompany : getField (contactRecord now ts body) "company"
      = some (jsOr ((getField body "company").getD JVal.undef) (JVal.str "N/A")) := rfl
  refine ⟨?_, rfl, rfl, ?_, ?_, ?_, ?_⟩
  · have : (contactPost now ts true sendOk body db).db
        = setField db "messages" (JVal.arr (xs ++ [JVal.obj (contactRecord now ts body)])) := by
      simp [contactPost, hm]
    rw [this, getField_setField_self]
  · intro h
    rw [hphone]
    simp [jsOr, h]
  · intro v hv htr
    rw [hphone, hv]
    simp [jsOr, htr]
  · intro h
    rw [hcompany]
    simp [jsOr, h]
  · intro v hv htr
    rw [hcompany, hv]
    simp [jsOr, htr]

/-- Witness for `c6_contact_na_defaults`: a submission with a truthy
phone and no company stores the phone verbatim and "N/A" for company,
appending the record to the messages collection. -/
theorem c6_contact_na_defaults_witness :
    getField (contactPost 11 "2024-03-02T00:00:00.000Z" true true
        [("name", JVal.str "A"), ("phone", JVal.str "123")] sampleDb).db "messages"
      = some (JVal.arr [JVal.obj (contactRecord 11 "2024-03-02T00:00:00.000Z"
          [("name", JVal.str "A"), ("phone", JVal.str "123")])])
  ∧ getField (contactRecord 11 "2024-03-02T00:00:00.000Z"
        [("name", JVal.str "A"), ("phone", JVal.str "123")]) "phone"
      = some (JVal.str "123")
  ∧ getField (contactRecord 11 "2024-03-02T00:00:00.000Z"
        [("name", JVal.str "A"), ("phone", JVal.str "123")]) "company"
      = some (JVal.str "N/A")
  ∧ getField (contactRecord 11 "2024-03-02T00:00:00.000Z"
        [("name", JVal.str "A"), ("phone", JVal.str "123")]) "id"
      = some (JVal.str "11") := by
  have h := c6_contact_na_defaults 11 "2024-03-02T00:00:00.000Z" true
    [("name", JVal.str "A"), ("phone", JVal.str "123")] sampleDb [] rfl
  exact ⟨h.1, h.2.2.2.2.1 (JVal.str "123") rfl rfl, h.2.2.2.2.2.1 rfl, h.2.1⟩

/-- C9 counterexample: updating a missing id is a mutating operation by
the claim's list, yet its trace is a single read — no full-document
write happens — so "every mutating operation performs one full-document
read and one full-document write" fails at this input. -/
theorem c9_counterexample :
    (updatePut "posts" "999" [("title", JVal.str "X")] sampleDb).events = [FsEv.read]
  ∧ FsEv.write ∉ (updatePut "posts" "999" [("title", JVal.str "X")] sampleDb).events := by
  refine ⟨rfl, ?_⟩
  intro h
  rw [show (updatePut "posts" "999" [("title", JVal.str "X")] sampleDb).events
      = [FsEv.read] from rfl] at h
  simp at h

/-- C9 amended: every mutating operation performs exactly one
full-document read; Update on a found id, Delete, and the hero singleton
update additionally perform exactly one full-document write and leave
every top-level field other than the targeted resource unchanged; the
generic Create throws before writing and Update on a missing id responds
without writing, each leaving the document untouched. -/
theorem c9_frame (resource k idp : String) (now : Nat) (body db : Obj)
    (xs : List JVal)
    (harr : getField db resource = some (JVal.arr xs))
    (hk : k ≠ resource) :
    ((createPost now resource body db).events = [FsEv.read]
      ∧ (createPost now resource body db).db = db)
  ∧ (∀ i : Nat, xs.findIdx? (fun it => itemIdEq it idp) = some i →
        (updatePut resource idp body db).events = [FsEv.read, FsEv.write]
      ∧ getField (updatePut resource idp body db).db k = getField db k)
  ∧ (xs.findIdx? (fun it => itemIdEq it idp) = none →
        (updatePut resource idp body db).events = [FsEv.read]
      ∧ (updatePut resource idp body db).db = db)
  ∧ ((deleteDel resource idp db).events = [FsEv.read, FsEv.write]
      ∧ getField (deleteDel resource idp db).db k = getField db k)
  ∧ ((heroPut body db).events = [FsEv.read, FsEv.write]
      ∧ (k ≠ "hero" → getField (heroPut body db).db k = getField db k)) := by
  refine ⟨⟨rfl, rfl⟩, ?_, ?_, ⟨?_, ?_⟩, rfl, ?_⟩
  · intro i hidx
    constructor
    · simp [updatePut, harr, hidx]
    · have : (updatePut resource idp body db).db
          = setField db resource
              (JVal.arr (xs.set i (mergeVal (xs.getD i JVal.null) body))) := by
        simp [updatePut, harr, hidx]
      rw [this, getField_setField_ne _ _ _ _ hk]
  · intro hidx
    constructor
    · simp [updatePut, harr, hidx]
    · simp [updatePut, harr, hidx]
  · simp [deleteDel, harr]
  · have : (deleteDel resource idp db).db
        = setField db resource (JVal.arr (xs.filter (fun it => ! itemIdEq it idp))) := by
      simp [deleteDel, harr]
    rw [this, getField_setField_ne _ _ _ _ hk]
  · intro hkh
    unfold heroPut
    rw [getField_setField_ne _ _ _ _ hkh]

/-- Witness for `c9_frame`: operations targeting the posts collection of
the sample document leave the admin field alone, and the missing-id
update performs no write. -/
theorem c9_frame_witness :
    ((createPost 3 "posts" [("title", JVal.str "T")] sampleDb).events = [FsEv.read]
      ∧ (createPost 3 "posts" [("title", JVal.str "T")] sampleDb).db = sampleDb)
  ∧ ((updatePut "posts" "100" [("title", JVal.str "T")] sampleDb).events
        = [FsEv.read, FsEv.write]
      ∧ getField (updatePut "posts" "100" [("title", JVal.str "T")] sampleDb).db "admin"
        = getField sampleDb "admin")
  ∧ ((deleteDel "posts" "100" sampleDb).events = [FsEv.read, FsEv.write]
      ∧ getField (deleteDel "posts" "100" sampleDb).db "admin"
        = getField sampleDb "admin")
  ∧ ((heroPut [("title", JVal.str "T")] sampleDb).events = [FsEv.read, FsEv.write]
      ∧ getField (heroPut [("title", JVal.str "T")] sampleDb).db "admin"
        = getField sampleDb "admin") := by
  have h := c9_frame "posts" "admin" "100" 3 [("title", JVal.str "T")] sampleDb
    [JVal.obj [("id", JVal.str "100"), ("title", JVal.str "First post"),
               ("created_at", JVal.str "2024-01-01T00:00:00.000Z")],
     JVal.obj [("id", JVal.str "200"), ("title", JVal.str "Second post"),
               ("created_at", JVal.str "2024-02-01T00:00:00.000Z")]]
    rfl (by decide)
  exact ⟨h.1, h.2.1 0 rfl, h.2.2.2.1, h.2.2.2.2.1, h.2.2.2.2.2 (by decide)⟩

end Creashift
